import Mathlib

/-!
A shallow embedding of the marine-species database canister
(src/src/marine_species_database_backend/src/lib.rs) and proofs about it.

Modelling conventions:
- The ambient caller identity (ic_cdk::caller, stringified by the code) is
  passed explicitly as a `caller : String` argument; the ambient time
  (ic_cdk::api::time) as `now : Nat`.
- u64 values are modelled as Nat; the one place where overflow could matter,
  the id counter increment, takes the result mod 2 ^ 64 as the release-build
  wrap-around would.
- The two StableBTreeMap stores are modelled as association lists kept in
  strictly ascending key order; the two stable Cell counters as Nat fields of
  one explicit state record. All canister operations become pure functions
  from the explicit state.
- Rust Result is Except; the validator crate ValidationErrors value, which
  the code only ever stringifies, is modelled as the list of
  (field, constraint code) pairs it aggregates.
-/

/-- struct Taxonomy (lib.rs lines 16-28). -/
structure Taxonomy where
  id : Nat
  researcher : String
  kingdom : String
  phylum : String
  «class» : String
  order : String
  family : String
  genus : String
  species : String
  created_at : Nat
  updated_at : Option Nat
deriving DecidableEq

/-- struct MarineSpecie (lib.rs lines 31-40); taxonomy_id is a reference to
Taxonomy by id. -/
structure MarineSpecie where
  id : Nat
  researcher : String
  name : String
  habitat : String
  taxonomy_id : Nat
  conservation_status : String
  created_at : Nat
  updated_at : Option Nat
deriving DecidableEq

/-- enum Error (lib.rs lines 424-430). ValidationFailed carries the
stringified ValidationErrors; we model the string by the list of
(field, constraint code) pairs the validator crate aggregates into it. -/
inductive Error where
  | NotFound (msg : String)
  | ValidationFailed (content : List (String × String))
  | InvalidInput
  | NotResearcher
deriving DecidableEq

/-- struct TaxonomyPayload (lib.rs lines 101-117): every field carries a
validate(length(min = 1)) attribute. -/
structure TaxonomyPayload where
  kingdom : String
  phylum : String
  «class» : String
  order : String
  family : String
  genus : String
  species : String
deriving DecidableEq

/-- struct MarineSpeciePayload (lib.rs lines 119-129). -/
structure MarineSpeciePayload where
  name : String
  habitat : String
  taxonomy_id : Nat
  conservation_status : String
deriving DecidableEq

/-- Model of the derived validator::Validate for TaxonomyPayload: each
length(min = 1) constraint is violated exactly when the field has fewer than
one character; all violations are aggregated, none is dropped. An empty
result list models Ok(()). -/
def TaxonomyPayload.validate (p : TaxonomyPayload) : List (String × String) :=
  (if p.kingdom.length < 1 then [("kingdom", "length")] else []) ++
  (if p.phylum.length < 1 then [("phylum", "length")] else []) ++
  (if p.«class».length < 1 then [("class", "length")] else []) ++
  (if p.order.length < 1 then [("order", "length")] else []) ++
  (if p.family.length < 1 then [("family", "length")] else []) ++
  (if p.genus.length < 1 then [("genus", "length")] else []) ++
  (if p.species.length < 1 then [("species", "length")] else [])

/-- Model of the derived validator::Validate for MarineSpeciePayload:
length(min = 1) on the three string fields and range(min = 0) on
taxonomy_id (vacuous on an unsigned value, kept explicit as in the source). -/
def MarineSpeciePayload.validate (p : MarineSpeciePayload) : List (String × String) :=
  (if p.name.length < 1 then [("name", "length")] else []) ++
  (if p.habitat.length < 1 then [("habitat", "length")] else []) ++
  (if p.taxonomy_id < 0 then [("taxonomy_id", "range")] else []) ++
  (if p.conservation_status.length < 1 then [("conservation_status", "length")] else [])

/-- StableBTreeMap.insert: write or overwrite the binding of key k, keeping
the association list in strictly ascending key order. -/
def mapInsert {α : Type} (k : Nat) (v : α) : List (Nat × α) → List (Nat × α)
  | [] => [(k, v)]
  | (k₁, v₁) :: rest =>
    if k < k₁ then (k, v) :: (k₁, v₁) :: rest
    else if k = k₁ then (k, v) :: rest
    else (k₁, v₁) :: mapInsert k v rest

/-- StableBTreeMap.get: the current binding of key k, if any. -/
def mapGet {α : Type} (k : Nat) : List (Nat × α) → Option α
  | [] => none
  | (k₁, v₁) :: rest => if k = k₁ then some v₁ else mapGet k rest

/-- StableBTreeMap.remove: delete the binding of key k, returning the prior
value (if any) together with the remaining map. -/
def mapRemove {α : Type} (k : Nat) : List (Nat × α) → Option α × List (Nat × α)
  | [] => (none, [])
  | (k₁, v₁) :: rest =>
    if k = k₁ then (some v₁, rest)
    else
      let r := mapRemove k rest
      (r.1, (k₁, v₁) :: r.2)

/-- The canister durable state: the two stable id counter Cells
(TAXONOMY_ID_COUNTER, MARINESPECIE_ID_COUNTER) and the two StableBTreeMap
stores (TAXONOMY_STR, MARINESPECIE_STR) of lib.rs lines 81-97. -/
structure State where
  taxonomy_id_counter : Nat
  marinespecie_id_counter : Nat
  taxonomy_str : List (Nat × Taxonomy)
  marinespecie_str : List (Nat × MarineSpecie)
deriving DecidableEq

/-- The fresh state: both counters initialized to 0, both stores empty
(lib.rs lines 81-97). -/
def initState : State :=
  { taxonomy_id_counter := 0, marinespecie_id_counter := 0,
    taxonomy_str := [], marinespecie_str := [] }

/-- _get_taxonomy (lib.rs lines 162-164). -/
def _get_taxonomy (id : Nat) (s : State) : Option Taxonomy :=
  mapGet id s.taxonomy_str

/-- _get_marinespecie (lib.rs lines 311-313). -/
def _get_marinespecie (id : Nat) (s : State) : Option MarineSpecie :=
  mapGet id s.marinespecie_str

/-- is_caller_taxonomy_research (lib.rs lines 166-172): fails with
NotResearcher unless the record researcher equals the caller identity. -/
def is_caller_taxonomy_research (caller : String) (taxonomy : Taxonomy) :
    Except Error Unit :=
  if taxonomy.researcher ≠ caller then Except.error Error.NotResearcher
  else Except.ok ()

/-- is_caller_marinespecie_research (lib.rs lines 174-180). -/
def is_caller_marinespecie_research (caller : String) (marinespecie : MarineSpecie) :
    Except Error Unit :=
  if marinespecie.researcher ≠ caller then Except.error Error.NotResearcher
  else Except.ok ()

/-- get_taxonomy (lib.rs lines 150-157). -/
def get_taxonomy (id : Nat) (s : State) : Except Error Taxonomy :=
  match _get_taxonomy id s with
  | some taxonomy => Except.ok taxonomy
  | none =>
    Except.error (Error.NotFound ("taxonomy with id=" ++ toString id ++ " not found"))

/-- get_marinespecie (lib.rs lines 302-309). -/
def get_marinespecie (id : Nat) (s : State) : Except Error MarineSpecie :=
  match _get_marinespecie id s with
  | some marinespecie => Except.ok marinespecie
  | none =>
    Except.error (Error.NotFound ("Marine_Specie with id=" ++ toString id ++ " not found"))

/-- get_all_taxonomy (lib.rs lines 133-148). -/
def get_all_taxonomy (s : State) : Except Error (List Taxonomy) :=
  let taxonomys := s.taxonomy_str.map Prod.snd
  if taxonomys ≠ [] then Except.ok taxonomys
  else Except.error (Error.NotFound "No Taxonomys found..... Empty! .")

/-- get_all_marinespecie (lib.rs lines 286-298). -/
def get_all_marinespecie (s : State) : Except Error (List MarineSpecie) :=
  let marinespecies := s.marinespecie_str.map Prod.snd
  if marinespecies ≠ [] then Except.ok marinespecies
  else Except.error (Error.NotFound "No marinespecie found.")

/-- Model of str::to_lowercase: lowercase every character. (Rust performs
the full Unicode mapping; on the ASCII data of this development the
per-character Char.toLower coincides with it.) -/
def lowercase (s : String) : String :=
  String.mk (s.data.map Char.toLower)

/-- get_marinespecie_by_conservation_status (lib.rs lines 319-337): retain
the stored records whose conservation_status equals the query after both are
lowercased (str::to_lowercase, modelled by lowercase above), NotFound when
nothing matches. -/
def get_marinespecie_by_conservation_status (conservation_status : String)
    (s : State) : Except Error (List MarineSpecie) :=
  let marinespecie_in_conservation_status : List MarineSpecie :=
    (s.marinespecie_str.map Prod.snd).filter
      (fun marinespecie =>
        lowercase marinespecie.conservation_status == lowercase conservation_status)
  if marinespecie_in_conservation_status ≠ [] then
    Except.ok marinespecie_in_conservation_status
  else
    Except.error (Error.NotFound
      ("No Marine Specie  found in classified conservation_status: " ++ conservation_status))

/-- do_insert_taxonomy (lib.rs lines 253-259): insert under the record own id. -/
def do_insert_taxonomy (taxonomy : Taxonomy) (s : State) : State :=
  { s with taxonomy_str := mapInsert taxonomy.id taxonomy s.taxonomy_str }

/-- do_insert_marinespecie (lib.rs lines 402-404). -/
def do_insert_marinespecie (marinespecie : MarineSpecie) (s : State) : State :=
  { s with marinespecie_str := mapInsert marinespecie.id marinespecie s.marinespecie_str }

/-- add_taxonomy (lib.rs lines 184-215): validate, then increment the
counter Cell - whose set returns the PREVIOUS value, which becomes the new
id - then build and insert the record. -/
def add_taxonomy (caller : String) (now : Nat) (taxonomy_payload : TaxonomyPayload)
    (s : State) : Except Error Taxonomy × State :=
  let check_payload := taxonomy_payload.validate
  if check_payload ≠ [] then
    (Except.error (Error.ValidationFailed check_payload), s)
  else
    let current_value := s.taxonomy_id_counter
    let id := current_value
    let s1 : State := { s with taxonomy_id_counter := (current_value + 1) % 2 ^ 64 }
    let taxonomy : Taxonomy :=
      { id := id, researcher := caller,
        kingdom := taxonomy_payload.kingdom, phylum := taxonomy_payload.phylum,
        «class» := taxonomy_payload.«class», order := taxonomy_payload.order,
        family := taxonomy_payload.family, genus := taxonomy_payload.genus,
        species := taxonomy_payload.species,
        created_at := now, updated_at := none }
    (Except.ok taxonomy, do_insert_taxonomy taxonomy s1)

/-- add_marinespecie (lib.rs lines 341-370). -/
def add_marinespecie (caller : String) (now : Nat)
    (marinespecie_payload : MarineSpeciePayload) (s : State) :
    Except Error MarineSpecie × State :=
  let check_payload := marinespecie_payload.validate
  if check_payload ≠ [] then
    (Except.error (Error.ValidationFailed check_payload), s)
  else
    let current_value := s.marinespecie_id_counter
    let id := current_value
    let s1 : State := { s with marinespecie_id_counter := (current_value + 1) % 2 ^ 64 }
    let marinespecie : MarineSpecie :=
      { id := id, researcher := caller,
        name := marinespecie_payload.name, habitat := marinespecie_payload.habitat,
        taxonomy_id := marinespecie_payload.taxonomy_id,
        conservation_status := marinespecie_payload.conservation_status,
        created_at := now, updated_at := none }
    (Except.ok marinespecie, do_insert_marinespecie marinespecie s1)

/-- update_taxonomy (lib.rs lines 219-250): validate, then look the id up,
then authorize; on success overwrite the payload fields, stamp updated_at,
and reinsert. -/
def update_taxonomy (caller : String) (now : Nat) (id : Nat)
    (taxonomy_payload : TaxonomyPayload) (s : State) : Except Error Taxonomy × State :=
  let check_payload := taxonomy_payload.validate
  if check_payload ≠ [] then
    (Except.error (Error.ValidationFailed check_payload), s)
  else
    match mapGet id s.taxonomy_str with
    | some taxonomy =>
      match is_caller_taxonomy_research caller taxonomy with
      | Except.error e => (Except.error e, s)
      | Except.ok _ =>
        let taxonomy1 : Taxonomy :=
          { taxonomy with
            kingdom := taxonomy_payload.kingdom, phylum := taxonomy_payload.phylum,
            «class» := taxonomy_payload.«class», order := taxonomy_payload.order,
            family := taxonomy_payload.family, genus := taxonomy_payload.genus,
            species := taxonomy_payload.species, updated_at := some now }
        (Except.ok taxonomy1, do_insert_taxonomy taxonomy1 s)
    | none =>
      (Except.error (Error.NotFound
        ("Update Taxonomy  with id=" ++ toString id ++ ". not found")), s)

/-- update_marinespecie (lib.rs lines 374-399). -/
def update_marinespecie (caller : String) (now : Nat) (id : Nat)
    (marinespecie_payload : MarineSpeciePayload) (s : State) :
    Except Error MarineSpecie × State :=
  let check_payload := marinespecie_payload.validate
  if check_payload ≠ [] then
    (Except.error (Error.ValidationFailed check_payload), s)
  else
    match mapGet id s.marinespecie_str with
    | some marinespecie =>
      match is_caller_marinespecie_research caller marinespecie with
      | Except.error e => (Except.error e, s)
      | Except.ok _ =>
        let marinespecie1 : MarineSpecie :=
          { marinespecie with
            name := marinespecie_payload.name, habitat := marinespecie_payload.habitat,
            taxonomy_id := marinespecie_payload.taxonomy_id,
            conservation_status := marinespecie_payload.conservation_status,
            updated_at := some now }
        (Except.ok marinespecie1, do_insert_marinespecie marinespecie1 s)
    | none =>
      (Except.error (Error.NotFound
        ("could not update Marine Specie with id=" ++ toString id ++ ".")), s)

/-- delete_taxonomy (lib.rs lines 263-279): look up, authorize, remove. -/
def delete_taxonomy (caller : String) (id : Nat) (s : State) :
    Except Error Taxonomy × State :=
  match _get_taxonomy id s with
  | none =>
    (Except.error (Error.NotFound ("Taxonomy with id=" ++ toString id ++ " not found")), s)
  | some taxonomy =>
    match is_caller_taxonomy_research caller taxonomy with
    | Except.error e => (Except.error e, s)
    | Except.ok _ =>
      let r := mapRemove id s.taxonomy_str
      let s1 : State := { s with taxonomy_str := r.2 }
      match r.1 with
      | some taxonomy1 => (Except.ok taxonomy1, s1)
      | none =>
        (Except.error (Error.NotFound
          ("couldn't delete a taxonomy with id=" ++ toString id ++ ". taxonomy not found.")), s1)

/-- delete_marinespecie (lib.rs lines 407-423). -/
def delete_marinespecie (caller : String) (id : Nat) (s : State) :
    Except Error MarineSpecie × State :=
  match _get_marinespecie id s with
  | none =>
    (Except.error (Error.NotFound ("Marine specie with id=" ++ toString id ++ " not found")), s)
  | some marinespecie =>
    match is_caller_marinespecie_research caller marinespecie with
    | Except.error e => (Except.error e, s)
    | Except.ok _ =>
      let r := mapRemove id s.marinespecie_str
      let s1 : State := { s with marinespecie_str := r.2 }
      match r.1 with
      | some marinespecie1 => (Except.ok marinespecie1, s1)
      | none =>
        (Except.error (Error.NotFound
          ("couldn't delete a marinespecie with id=" ++ toString id ++ ".")), s1)

/-- One mutating canister call, with its ambient caller and time made
explicit; the update methods exposed by lib.rs. -/
inductive Op where
  | addTax (caller : String) (now : Nat) (p : TaxonomyPayload)
  | updateTax (caller : String) (now : Nat) (id : Nat) (p : TaxonomyPayload)
  | deleteTax (caller : String) (id : Nat)
  | addMar (caller : String) (now : Nat) (p : MarineSpeciePayload)
  | updateMar (caller : String) (now : Nat) (id : Nat) (p : MarineSpeciePayload)
  | deleteMar (caller : String) (id : Nat)
deriving DecidableEq

/-- The state effect of one mutating call. -/
def runOp (op : Op) (s : State) : State :=
  match op with
  | .addTax c n p => (add_taxonomy c n p s).2
  | .updateTax c n id p => (update_taxonomy c n id p s).2
  | .deleteTax c id => (delete_taxonomy c id s).2
  | .addMar c n p => (add_marinespecie c n p s).2
  | .updateMar c n id p => (update_marinespecie c n id p s).2
  | .deleteMar c id => (delete_marinespecie c id s).2

/-- Run a sequence of mutating calls in order. -/
def runOps : List Op → State → State
  | [], s => s
  | op :: rest, s => runOps rest (runOp op s)

/-- The ids handed out by the successful add_taxonomy calls of a call
sequence, in call order. -/
def createdTaxIds : List Op → State → List Nat
  | [], _ => []
  | .addTax c n p :: rest, s =>
    match add_taxonomy c n p s with
    | (Except.ok t, s1) => t.id :: createdTaxIds rest s1
    | (Except.error _, s1) => createdTaxIds rest s1
  | op :: rest, s => createdTaxIds rest (runOp op s)

/-- The ids handed out by the successful add_marinespecie calls of a call
sequence, in call order. -/
def createdMarIds : List Op → State → List Nat
  | [], _ => []
  | .addMar c n p :: rest, s =>
    match add_marinespecie c n p s with
    | (Except.ok m, s1) => m.id :: createdMarIds rest s1
    | (Except.error _, s1) => createdMarIds rest s1
  | op :: rest, s => createdMarIds rest (runOp op s)


/-- Decidable equality for Except, used to evaluate results on concrete
inputs. -/
instance {ε α : Type} [DecidableEq ε] [DecidableEq α] : DecidableEq (Except ε α) :=
  fun x y =>
    match x, y with
    | Except.ok a, Except.ok b =>
      if h : a = b then isTrue (by rw [h]) else isFalse (by simp [h])
    | Except.error a, Except.error b =>
      if h : a = b then isTrue (by rw [h]) else isFalse (by simp [h])
    | Except.ok _, Except.error _ => isFalse (by simp)
    | Except.error _, Except.ok _ => isFalse (by simp)

/-! ## Concrete payloads from the spec end-to-end example -/

/-- The Taxonomy payload of the spec end-to-end example. -/
def exampleTaxonomyPayload : TaxonomyPayload :=
  { kingdom := "Animalia", phylum := "Chordata", «class» := "Mammalia",
    order := "Cetacea", family := "Balaenopteridae", genus := "Balaenoptera",
    species := "musculus" }

/-- The MarineSpecies payload of the spec end-to-end example (with the
taxonomy reference pointing at the id the first Create actually returns). -/
def exampleMarinePayload : MarineSpeciePayload :=
  { name := "Blue Whale", habitat := "Ocean", taxonomy_id := 0,
    conservation_status := "Endangered" }

/-- The state after the two Creates of the spec end-to-end example, both
performed by researcher "alice": one Taxonomy (id 0) and one MarineSpecies
(id 0, referencing taxonomy id 0, status "Endangered"). -/
def exampleState : State :=
  runOps [Op.addTax "alice" 1 exampleTaxonomyPayload,
          Op.addMar "alice" 2 exampleMarinePayload] initState

/-! ## Basic lemmas about the map model and the operations -/

lemma mapGet_mapInsert_self {α : Type} (k : Nat) (v : α) :
    ∀ l : List (Nat × α), mapGet k (mapInsert k v l) = some v
  | [] => by simp [mapInsert, mapGet]
  | (k₁, v₁) :: rest => by
    by_cases h1 : k < k₁
    · simp [mapInsert, h1, mapGet]
    · by_cases h2 : k = k₁
      · simp [mapInsert, h1, h2, mapGet]
      · simp [mapInsert, h1, h2, mapGet, mapGet_mapInsert_self k v rest]

lemma add_taxonomy_err (c : String) (n : Nat) (pt : TaxonomyPayload) (s : State)
    (h : pt.validate ≠ []) :
    add_taxonomy c n pt s = (Except.error (Error.ValidationFailed pt.validate), s) := by
  simp [add_taxonomy, h]

lemma add_marinespecie_err (c : String) (n : Nat) (pm : MarineSpeciePayload) (s : State)
    (h : pm.validate ≠ []) :
    add_marinespecie c n pm s = (Except.error (Error.ValidationFailed pm.validate), s) := by
  simp [add_marinespecie, h]

lemma add_taxonomy_ok (c : String) (n : Nat) (pt : TaxonomyPayload) (s : State)
    (h : pt.validate = []) :
    add_taxonomy c n pt s =
      (Except.ok ⟨s.taxonomy_id_counter, c, pt.kingdom, pt.phylum, pt.«class», pt.order,
          pt.family, pt.genus, pt.species, n, none⟩,
       { s with
          taxonomy_id_counter := (s.taxonomy_id_counter + 1) % 2 ^ 64,
          taxonomy_str := mapInsert s.taxonomy_id_counter
            ⟨s.taxonomy_id_counter, c, pt.kingdom, pt.phylum, pt.«class», pt.order,
              pt.family, pt.genus, pt.species, n, none⟩ s.taxonomy_str }) := by
  simp [add_taxonomy, do_insert_taxonomy, h]

lemma add_marinespecie_ok (c : String) (n : Nat) (pm : MarineSpeciePayload) (s : State)
    (h : pm.validate = []) :
    add_marinespecie c n pm s =
      (Except.ok ⟨s.marinespecie_id_counter, c, pm.name, pm.habitat, pm.taxonomy_id,
          pm.conservation_status, n, none⟩,
       { s with
          marinespecie_id_counter := (s.marinespecie_id_counter + 1) % 2 ^ 64,
          marinespecie_str := mapInsert s.marinespecie_id_counter
            ⟨s.marinespecie_id_counter, c, pm.name, pm.habitat, pm.taxonomy_id,
              pm.conservation_status, n, none⟩ s.marinespecie_str }) := by
  simp [add_marinespecie, do_insert_marinespecie, h]

lemma add_taxonomy_frame (c : String) (n : Nat) (pt : TaxonomyPayload) (s : State) :
    ((add_taxonomy c n pt s).2).marinespecie_id_counter = s.marinespecie_id_counter ∧
    ((add_taxonomy c n pt s).2).marinespecie_str = s.marinespecie_str := by
  by_cases h : pt.validate = []
  · simp [add_taxonomy_ok c n pt s h]
  · simp [add_taxonomy_err c n pt s h]

lemma add_marinespecie_frame (c : String) (n : Nat) (pm : MarineSpeciePayload) (s : State) :
    ((add_marinespecie c n pm s).2).taxonomy_id_counter = s.taxonomy_id_counter ∧
    ((add_marinespecie c n pm s).2).taxonomy_str = s.taxonomy_str := by
  by_cases h : pm.validate = []
  · simp [add_marinespecie_ok c n pm s h]
  · simp [add_marinespecie_err c n pm s h]

lemma update_taxonomy_frame (c : String) (n : Nat) (id : Nat) (pt : TaxonomyPayload)
    (s : State) :
    ((update_taxonomy c n id pt s).2).taxonomy_id_counter = s.taxonomy_id_counter ∧
    ((update_taxonomy c n id pt s).2).marinespecie_id_counter = s.marinespecie_id_counter ∧
    ((update_taxonomy c n id pt s).2).marinespecie_str = s.marinespecie_str := by
  simp only [update_taxonomy]
  repeat' split
  all_goals simp [do_insert_taxonomy]

lemma update_marinespecie_frame (c : String) (n : Nat) (id : Nat) (pm : MarineSpeciePayload)
    (s : State) :
    ((update_marinespecie c n id pm s).2).marinespecie_id_counter = s.marinespecie_id_counter ∧
    ((update_marinespecie c n id pm s).2).taxonomy_id_counter = s.taxonomy_id_counter ∧
    ((update_marinespecie c n id pm s).2).taxonomy_str = s.taxonomy_str := by
  simp only [update_marinespecie]
  repeat' split
  all_goals simp [do_insert_marinespecie]

lemma delete_taxonomy_frame (c : String) (id : Nat) (s : State) :
    ((delete_taxonomy c id s).2).taxonomy_id_counter = s.taxonomy_id_counter ∧
    ((delete_taxonomy c id s).2).marinespecie_id_counter = s.marinespecie_id_counter ∧
    ((delete_taxonomy c id s).2).marinespecie_str = s.marinespecie_str := by
  simp only [delete_taxonomy]
  repeat' split
  all_goals simp

lemma delete_marinespecie_frame (c : String) (id : Nat) (s : State) :
    ((delete_marinespecie c id s).2).marinespecie_id_counter = s.marinespecie_id_counter ∧
    ((delete_marinespecie c id s).2).taxonomy_id_counter = s.taxonomy_id_counter ∧
    ((delete_marinespecie c id s).2).taxonomy_str = s.taxonomy_str := by
  simp only [delete_marinespecie]
  repeat' split
  all_goals simp

/-! ## Claim theorems -/

/-- C2 counterexample: from the fresh state the first successful Create does
not return a record with id 1. With the spec own end-to-end payload the call
succeeds and the returned id is 0 for both collections, because Cell.set
returns the value it replaces. -/
theorem first_create_id_is_not_one :
    (((add_taxonomy "2vxsx-fae" 0 exampleTaxonomyPayload initState).1).toOption.map
      Taxonomy.id) = some 0 ∧
    (((add_taxonomy "2vxsx-fae" 0 exampleTaxonomyPayload initState).1).toOption.map
      Taxonomy.id) ≠ some 1 ∧
    (((add_marinespecie "2vxsx-fae" 0 exampleMarinePayload initState).1).toOption.map
      MarineSpecie.id) = some 0 ∧
    (((add_marinespecie "2vxsx-fae" 0 exampleMarinePayload initState).1).toOption.map
      MarineSpecie.id) ≠ some 1 := by
  decide

/-- C2 (amended): starting from the fresh state, where both id counters are
initialized to 0, the first successful Create in a collection returns a
record whose id equals 0. -/
theorem first_create_id_zero (c : String) (n : Nat) (pt : TaxonomyPayload)
    (pm : MarineSpeciePayload) (ht : pt.validate = []) (hm : pm.validate = []) :
    (((add_taxonomy c n pt initState).1).toOption.map Taxonomy.id) = some 0 ∧
    (((add_marinespecie c n pm initState).1).toOption.map MarineSpecie.id) = some 0 := by
  rw [add_taxonomy_ok c n pt initState ht, add_marinespecie_ok c n pm initState hm]
  exact ⟨rfl, rfl⟩

/-- Witness for the amended C2 at the spec example payloads. -/
theorem first_create_id_zero_witness :
    (((add_taxonomy "2vxsx-fae" 7 exampleTaxonomyPayload initState).1).toOption.map
      Taxonomy.id) = some 0 ∧
    (((add_marinespecie "2vxsx-fae" 7 exampleMarinePayload initState).1).toOption.map
      MarineSpecie.id) = some 0 :=
  first_create_id_zero "2vxsx-fae" 7 exampleTaxonomyPayload exampleMarinePayload
    (by decide) (by decide)

/-- C3: for every valid payload, a successful Create followed by ReadOne on
the returned id yields a record whose payload-derived fields equal the input
payload, whose researcher is the creating caller identity, and whose
updated_at is None; for both collections. -/
theorem create_then_read_roundtrip (c : String) (n : Nat) (pt : TaxonomyPayload)
    (pm : MarineSpeciePayload) (s : State) (ht : pt.validate = []) (hm : pm.validate = []) :
    (∃ t s1, add_taxonomy c n pt s = (Except.ok t, s1) ∧
      get_taxonomy t.id s1 = Except.ok t ∧
      t.researcher = c ∧ t.updated_at = none ∧
      t.kingdom = pt.kingdom ∧ t.phylum = pt.phylum ∧ t.«class» = pt.«class» ∧
      t.order = pt.order ∧ t.family = pt.family ∧ t.genus = pt.genus ∧
      t.species = pt.species) ∧
    (∃ m s1, add_marinespecie c n pm s = (Except.ok m, s1) ∧
      get_marinespecie m.id s1 = Except.ok m ∧
      m.researcher = c ∧ m.updated_at = none ∧
      m.name = pm.name ∧ m.habitat = pm.habitat ∧
      m.taxonomy_id = pm.taxonomy_id ∧ m.conservation_status = pm.conservation_status) := by
  constructor
  · refine ⟨_, _, add_taxonomy_ok c n pt s ht, ?_, rfl, rfl, rfl, rfl, rfl, rfl, rfl, rfl, rfl⟩
    simp [get_taxonomy, _get_taxonomy, mapGet_mapInsert_self]
  · refine ⟨_, _, add_marinespecie_ok c n pm s hm, ?_, rfl, rfl, rfl, rfl, rfl, rfl⟩
    simp [get_marinespecie, _get_marinespecie, mapGet_mapInsert_self]

/-- Witness for C3 at the spec example payloads, from the fresh state. -/
theorem create_then_read_roundtrip_witness :
    (∃ t s1, add_taxonomy "2vxsx-fae" 7 exampleTaxonomyPayload initState = (Except.ok t, s1) ∧
      get_taxonomy t.id s1 = Except.ok t ∧
      t.researcher = "2vxsx-fae" ∧ t.updated_at = none ∧
      t.kingdom = exampleTaxonomyPayload.kingdom ∧
      t.phylum = exampleTaxonomyPayload.phylum ∧
      t.«class» = exampleTaxonomyPayload.«class» ∧
      t.order = exampleTaxonomyPayload.order ∧
      t.family = exampleTaxonomyPayload.family ∧
      t.genus = exampleTaxonomyPayload.genus ∧
      t.species = exampleTaxonomyPayload.species) ∧
    (∃ m s1, add_marinespecie "2vxsx-fae" 7 exampleMarinePayload initState = (Except.ok m, s1) ∧
      get_marinespecie m.id s1 = Except.ok m ∧
      m.researcher = "2vxsx-fae" ∧ m.updated_at = none ∧
      m.name = exampleMarinePayload.name ∧
      m.habitat = exampleMarinePayload.habitat ∧
      m.taxonomy_id = exampleMarinePayload.taxonomy_id ∧
      m.conservation_status = exampleMarinePayload.conservation_status) :=
  create_then_read_roundtrip "2vxsx-fae" 7 exampleTaxonomyPayload exampleMarinePayload
    initState (by decide) (by decide)

/-- C6: for every invalid payload, Create fails with ValidationFailed and
returns the state completely unchanged - no id is consumed and neither store
is written - so the next successful Create is handed exactly the id it would
have received had the invalid call never happened. -/
theorem invalid_create_has_no_effect (c : String) (n : Nat) (pt : TaxonomyPayload)
    (pm : MarineSpeciePayload) (s : State) (ht : pt.validate ≠ []) (hm : pm.validate ≠ []) :
    add_taxonomy c n pt s = (Except.error (Error.ValidationFailed pt.validate), s) ∧
    add_marinespecie c n pm s = (Except.error (Error.ValidationFailed pm.validate), s) :=
  ⟨add_taxonomy_err c n pt s ht, add_marinespecie_err c n pm s hm⟩

/-- Witness for C6 at all-empty payloads. -/
theorem invalid_create_has_no_effect_witness :
    add_taxonomy "2vxsx-fae" 7 ⟨"", "", "", "", "", "", ""⟩ initState =
      (Except.error (Error.ValidationFailed
        (TaxonomyPayload.validate ⟨"", "", "", "", "", "", ""⟩)), initState) ∧
    add_marinespecie "2vxsx-fae" 7 ⟨"", "", 0, ""⟩ initState =
      (Except.error (Error.ValidationFailed
        (MarineSpeciePayload.validate ⟨"", "", 0, ""⟩)), initState) :=
  invalid_create_has_no_effect "2vxsx-fae" 7 ⟨"", "", "", "", "", "", ""⟩ ⟨"", "", 0, ""⟩
    initState (by decide) (by decide)

/-- C9: a payload with empty required string fields fails with one single
ValidationFailed error whose content lists an entry for every empty field,
not only the first one encountered; the state is untouched. -/
theorem validation_reports_all_empty_fields (c : String) (n : Nat)
    (pt : TaxonomyPayload) (s : State)
    (h : pt.kingdom = "" ∨ pt.phylum = "" ∨ pt.«class» = "" ∨ pt.order = "" ∨
      pt.family = "" ∨ pt.genus = "" ∨ pt.species = "") :
    add_taxonomy c n pt s = (Except.error (Error.ValidationFailed pt.validate), s) ∧
    (pt.kingdom = "" → ("kingdom", "length") ∈ pt.validate) ∧
    (pt.phylum = "" → ("phylum", "length") ∈ pt.validate) ∧
    (pt.«class» = "" → ("class", "length") ∈ pt.validate) ∧
    (pt.order = "" → ("order", "length") ∈ pt.validate) ∧
    (pt.family = "" → ("family", "length") ∈ pt.validate) ∧
    (pt.genus = "" → ("genus", "length") ∈ pt.validate) ∧
    (pt.species = "" → ("species", "length") ∈ pt.validate) := by
  have hne : pt.validate ≠ [] := by
    rcases h with h | h | h | h | h | h | h
    · exact List.ne_nil_of_mem
        (show ("kingdom", "length") ∈ pt.validate by simp [TaxonomyPayload.validate, h])
    · exact List.ne_nil_of_mem
        (show ("phylum", "length") ∈ pt.validate by simp [TaxonomyPayload.validate, h])
    · exact List.ne_nil_of_mem
        (show ("class", "length") ∈ pt.validate by simp [TaxonomyPayload.validate, h])
    · exact List.ne_nil_of_mem
        (show ("order", "length") ∈ pt.validate by simp [TaxonomyPayload.validate, h])
    · exact List.ne_nil_of_mem
        (show ("family", "length") ∈ pt.validate by simp [TaxonomyPayload.validate, h])
    · exact List.ne_nil_of_mem
        (show ("genus", "length") ∈ pt.validate by simp [TaxonomyPayload.validate, h])
    · exact List.ne_nil_of_mem
        (show ("species", "length") ∈ pt.validate by simp [TaxonomyPayload.validate, h])
  refine ⟨add_taxonomy_err c n pt s hne, ?_, ?_, ?_, ?_, ?_, ?_, ?_⟩ <;>
    intro h0 <;> simp [TaxonomyPayload.validate, h0]

/-- Witness for C9: a payload with kingdom, order and species empty is
rejected with all three fields reported. -/
theorem validation_reports_all_empty_fields_witness :
    add_taxonomy "2vxsx-fae" 7 ⟨"", "Chordata", "Mammalia", "", "Balaenopteridae",
        "Balaenoptera", ""⟩ initState =
      (Except.error (Error.ValidationFailed
        (TaxonomyPayload.validate ⟨"", "Chordata", "Mammalia", "", "Balaenopteridae",
          "Balaenoptera", ""⟩)), initState) ∧
    ("kingdom", "length") ∈ TaxonomyPayload.validate
      ⟨"", "Chordata", "Mammalia", "", "Balaenopteridae", "Balaenoptera", ""⟩ ∧
    ("order", "length") ∈ TaxonomyPayload.validate
      ⟨"", "Chordata", "Mammalia", "", "Balaenopteridae", "Balaenoptera", ""⟩ ∧
    ("species", "length") ∈ TaxonomyPayload.validate
      ⟨"", "Chordata", "Mammalia", "", "Balaenopteridae", "Balaenoptera", ""⟩ := by
  have h := validation_reports_all_empty_fields "2vxsx-fae" 7
    ⟨"", "Chordata", "Mammalia", "", "Balaenopteridae", "Balaenoptera", ""⟩ initState
    (Or.inl rfl)
  exact ⟨h.1, h.2.1 rfl, h.2.2.2.2.1 rfl, h.2.2.2.2.2.2.2 rfl⟩

/-- C4: with a valid payload and a stored record whose researcher is not
the caller, Update fails with the authorization error (NotResearcher, the
code rendering of NotAuthorized) and returns the state exactly unchanged;
likewise a non-owner Delete fails without removing anything. Each
collection is covered on its own, whatever the other store holds. -/
theorem non_owner_mutation_rejected :
    (∀ (c : String) (n id : Nat) (pt : TaxonomyPayload) (s : State) (t : Taxonomy),
      pt.validate = [] → mapGet id s.taxonomy_str = some t → t.researcher ≠ c →
      update_taxonomy c n id pt s = (Except.error Error.NotResearcher, s) ∧
      delete_taxonomy c id s = (Except.error Error.NotResearcher, s)) ∧
    (∀ (c : String) (n id : Nat) (pm : MarineSpeciePayload) (s : State) (m : MarineSpecie),
      pm.validate = [] → mapGet id s.marinespecie_str = some m → m.researcher ≠ c →
      update_marinespecie c n id pm s = (Except.error Error.NotResearcher, s) ∧
      delete_marinespecie c id s = (Except.error Error.NotResearcher, s)) := by
  constructor
  · intro c n id pt s t ht hgt hot
    constructor <;>
      simp [update_taxonomy, delete_taxonomy, _get_taxonomy, hgt, ht,
        is_caller_taxonomy_research, hot]
  · intro c n id pm s m hm hgm hom
    constructor <;>
      simp [update_marinespecie, delete_marinespecie, _get_marinespecie, hgm, hm,
        is_caller_marinespecie_research, hom]

/-- Witness for C4: caller "bob" can neither update nor delete the records
researcher "alice" created - the Taxonomy one in a state whose MarineSpecies
store is still empty (right after the first Create), the MarineSpecies one
in the two-record example state. -/
theorem non_owner_mutation_rejected_witness :
    update_taxonomy "bob" 9 0 exampleTaxonomyPayload
        (runOps [Op.addTax "alice" 1 exampleTaxonomyPayload] initState) =
      (Except.error Error.NotResearcher,
        runOps [Op.addTax "alice" 1 exampleTaxonomyPayload] initState) ∧
    delete_taxonomy "bob" 0 (runOps [Op.addTax "alice" 1 exampleTaxonomyPayload] initState) =
      (Except.error Error.NotResearcher,
        runOps [Op.addTax "alice" 1 exampleTaxonomyPayload] initState) ∧
    update_marinespecie "bob" 9 0 exampleMarinePayload exampleState =
      (Except.error Error.NotResearcher, exampleState) ∧
    delete_marinespecie "bob" 0 exampleState = (Except.error Error.NotResearcher, exampleState) := by
  have h1 := non_owner_mutation_rejected.1 "bob" 9 0 exampleTaxonomyPayload
    (runOps [Op.addTax "alice" 1 exampleTaxonomyPayload] initState)
    ⟨0, "alice", "Animalia", "Chordata", "Mammalia", "Cetacea", "Balaenopteridae",
      "Balaenoptera", "musculus", 1, none⟩
    (by decide) (by decide) (by decide)
  have h2 := non_owner_mutation_rejected.2 "bob" 9 0 exampleMarinePayload exampleState
    ⟨0, "alice", "Blue Whale", "Ocean", 0, "Endangered", 2, none⟩
    (by decide) (by decide) (by decide)
  exact ⟨h1.1, h1.2, h2.1, h2.2⟩

/-- C5: Update checks its preconditions in the order validate, then lookup,
then authorize: an invalid payload yields ValidationFailed whatever the id
and caller; a valid payload with an absent id yields NotFound whatever the
caller; and NotResearcher arises only when the payload is valid and the
record exists (with a researcher other than the caller). Both collections. -/
theorem update_precondition_order :
    (∀ (c : String) (n id : Nat) (pt : TaxonomyPayload) (s : State), pt.validate ≠ [] →
      update_taxonomy c n id pt s = (Except.error (Error.ValidationFailed pt.validate), s)) ∧
    (∀ (c : String) (n id : Nat) (pt : TaxonomyPayload) (s : State), pt.validate = [] →
      mapGet id s.taxonomy_str = none →
      update_taxonomy c n id pt s = (Except.error (Error.NotFound
        ("Update Taxonomy  with id=" ++ toString id ++ ". not found")), s)) ∧
    (∀ (c : String) (n id : Nat) (pt : TaxonomyPayload) (s : State),
      (update_taxonomy c n id pt s).1 = Except.error Error.NotResearcher →
      pt.validate = [] ∧ ∃ t, mapGet id s.taxonomy_str = some t ∧ t.researcher ≠ c) ∧
    (∀ (c : String) (n id : Nat) (pm : MarineSpeciePayload) (s : State), pm.validate ≠ [] →
      update_marinespecie c n id pm s =
        (Except.error (Error.ValidationFailed pm.validate), s)) ∧
    (∀ (c : String) (n id : Nat) (pm : MarineSpeciePayload) (s : State), pm.validate = [] →
      mapGet id s.marinespecie_str = none →
      update_marinespecie c n id pm s = (Except.error (Error.NotFound
        ("could not update Marine Specie with id=" ++ toString id ++ ".")), s)) ∧
    (∀ (c : String) (n id : Nat) (pm : MarineSpeciePayload) (s : State),
      (update_marinespecie c n id pm s).1 = Except.error Error.NotResearcher →
      pm.validate = [] ∧ ∃ m, mapGet id s.marinespecie_str = some m ∧ m.researcher ≠ c) := by
  refine ⟨?_, ?_, ?_, ?_, ?_, ?_⟩
  · intro c n id pt s hv
    simp [update_taxonomy, hv]
  · intro c n id pt s hv hg
    simp [update_taxonomy, hv, hg]
  · intro c n id pt s h
    by_cases hv : pt.validate = []
    · rcases hg : mapGet id s.taxonomy_str with _ | t
      · simp [update_taxonomy, hv, hg] at h
      · refine ⟨hv, t, rfl, ?_⟩
        by_cases ho : t.researcher = c
        · simp [update_taxonomy, hv, hg, is_caller_taxonomy_research, ho] at h
        · exact ho
    · simp [update_taxonomy, hv] at h
  · intro c n id pm s hv
    simp [update_marinespecie, hv]
  · intro c n id pm s hv hg
    simp [update_marinespecie, hv, hg]
  · intro c n id pm s h
    by_cases hv : pm.validate = []
    · rcases hg : mapGet id s.marinespecie_str with _ | m
      · simp [update_marinespecie, hv, hg] at h
      · refine ⟨hv, m, rfl, ?_⟩
        by_cases ho : m.researcher = c
        · simp [update_marinespecie, hv, hg, is_caller_marinespecie_research, ho] at h
        · exact ho
    · simp [update_marinespecie, hv] at h

/-- Witness for C5 at concrete inputs: an invalid payload on an absent id, a
valid payload on an absent id, and a non-owner update that was refused. -/
theorem update_precondition_order_witness :
    update_taxonomy "bob" 9 5 ⟨"", "", "", "", "", "", ""⟩ initState =
      (Except.error (Error.ValidationFailed
        (TaxonomyPayload.validate ⟨"", "", "", "", "", "", ""⟩)), initState) ∧
    update_taxonomy "bob" 9 5 exampleTaxonomyPayload initState =
      (Except.error (Error.NotFound
        ("Update Taxonomy  with id=" ++ toString 5 ++ ". not found")), initState) ∧
    (TaxonomyPayload.validate exampleTaxonomyPayload = [] ∧
      ∃ t, mapGet 0 exampleState.taxonomy_str = some t ∧ t.researcher ≠ "bob") ∧
    update_marinespecie "bob" 9 5 ⟨"", "", 0, ""⟩ initState =
      (Except.error (Error.ValidationFailed
        (MarineSpeciePayload.validate ⟨"", "", 0, ""⟩)), initState) ∧
    update_marinespecie "bob" 9 5 exampleMarinePayload initState =
      (Except.error (Error.NotFound
        ("could not update Marine Specie with id=" ++ toString 5 ++ ".")), initState) ∧
    (MarineSpeciePayload.validate exampleMarinePayload = [] ∧
      ∃ m, mapGet 0 exampleState.marinespecie_str = some m ∧ m.researcher ≠ "bob") :=
  ⟨update_precondition_order.1 "bob" 9 5 ⟨"", "", "", "", "", "", ""⟩ initState (by decide),
   update_precondition_order.2.1 "bob" 9 5 exampleTaxonomyPayload initState
     (by decide) (by decide),
   update_precondition_order.2.2.1 "bob" 9 0 exampleTaxonomyPayload exampleState (by rfl),
   update_precondition_order.2.2.2.1 "bob" 9 5 ⟨"", "", 0, ""⟩ initState (by decide),
   update_precondition_order.2.2.2.2.1 "bob" 9 5 exampleMarinePayload initState
     (by decide) (by decide),
   update_precondition_order.2.2.2.2.2 "bob" 9 0 exampleMarinePayload exampleState (by rfl)⟩

/-- C7: FilterByStatus returns exactly the stored MarineSpecies records
whose conservation_status equals the query under the lowercasing comparison
the code performs, and fails with NotFound exactly when no stored record
matches. -/
theorem filter_by_status_characterization (status : String) (s : State) :
    (∀ l, get_marinespecie_by_conservation_status status s = Except.ok l →
      ∀ m, m ∈ l ↔ (m ∈ s.marinespecie_str.map Prod.snd ∧
        lowercase m.conservation_status = lowercase status)) ∧
    ((∃ msg, get_marinespecie_by_conservation_status status s =
        Except.error (Error.NotFound msg)) ↔
      ∀ m ∈ s.marinespecie_str.map Prod.snd,
        lowercase m.conservation_status ≠ lowercase status) := by
  have key : ∀ m : MarineSpecie,
      (m ∈ (s.marinespecie_str.map Prod.snd).filter
        (fun x => lowercase x.conservation_status == lowercase status)) ↔
      (m ∈ s.marinespecie_str.map Prod.snd ∧
        lowercase m.conservation_status = lowercase status) := by
    intro m
    simp [List.mem_filter]
  constructor
  · intro l hl m
    simp only [get_marinespecie_by_conservation_status] at hl
    split at hl
    · cases hl
      exact key m
    · cases hl
  · simp only [get_marinespecie_by_conservation_status]
    split
    · rename_i hne
      constructor
      · rintro ⟨msg, hmsg⟩
        cases hmsg
      · intro hall
        exfalso
        apply hne
        refine List.filter_eq_nil_iff.mpr ?_
        intro a ha
        simpa using hall a ha
    · rename_i hnil
      rw [not_not] at hnil
      constructor
      · intro _ m hm hpred
        have hmem : m ∈ (s.marinespecie_str.map Prod.snd).filter
            (fun x => lowercase x.conservation_status == lowercase status) :=
          (key m).mpr ⟨hm, hpred⟩
        rw [hnil] at hmem
        cases hmem
      · intro _
        exact ⟨_, rfl⟩

/-- Witness for C7: the stored record with status "Endangered" is returned
both for query "endangered" and for query "ENDANGERED", and a query matching
nothing is exactly a NotFound failure. -/
theorem filter_by_status_characterization_witness :
    (∀ m, m ∈ [(⟨0, "alice", "Blue Whale", "Ocean", 0, "Endangered", 2, none⟩ : MarineSpecie)] ↔
      (m ∈ exampleState.marinespecie_str.map Prod.snd ∧
        lowercase m.conservation_status = lowercase "endangered")) ∧
    (∀ m, m ∈ [(⟨0, "alice", "Blue Whale", "Ocean", 0, "Endangered", 2, none⟩ : MarineSpecie)] ↔
      (m ∈ exampleState.marinespecie_str.map Prod.snd ∧
        lowercase m.conservation_status = lowercase "ENDANGERED")) ∧
    ((∃ msg, get_marinespecie_by_conservation_status "Extinct" exampleState =
        Except.error (Error.NotFound msg)) ↔
      ∀ m ∈ exampleState.marinespecie_str.map Prod.snd,
        lowercase m.conservation_status ≠ lowercase "Extinct") :=
  ⟨(filter_by_status_characterization "endangered" exampleState).1
      [⟨0, "alice", "Blue Whale", "Ocean", 0, "Endangered", 2, none⟩] (by decide),
   (filter_by_status_characterization "ENDANGERED" exampleState).1
      [⟨0, "alice", "Blue Whale", "Ocean", 0, "Endangered", 2, none⟩] (by decide),
   (filter_by_status_characterization "Extinct" exampleState).2⟩

/-- C8: a successful Delete of a Taxonomy record leaves the MarineSpecies
store (and its id counter) entirely unchanged: every stored MarineSpecies
record, including any whose taxonomy_id references the deleted Taxonomy id,
is still readable afterwards with all fields unmodified. -/
theorem delete_taxonomy_leaves_marine_store (c : String) (id : Nat) (s : State)
    (t : Taxonomy) (_success : (delete_taxonomy c id s).1 = Except.ok t) :
    ((delete_taxonomy c id s).2).marinespecie_str = s.marinespecie_str ∧
    ((delete_taxonomy c id s).2).marinespecie_id_counter = s.marinespecie_id_counter ∧
    ∀ mid m, _get_marinespecie mid s = some m →
      get_marinespecie mid (delete_taxonomy c id s).2 = Except.ok m := by
  obtain ⟨h1, h2, h3⟩ := delete_taxonomy_frame c id s
  refine ⟨h3, h2, ?_⟩
  intro mid m hm
  have hget : _get_marinespecie mid (delete_taxonomy c id s).2 = some m := by
    simpa [_get_marinespecie, h3] using hm
  simp [get_marinespecie, hget]

/-- Witness for C8: deleting Taxonomy 0 of the example scenario succeeds and
the MarineSpecies record that references it is still readable, unchanged. -/
theorem delete_taxonomy_leaves_marine_store_witness :
    ((delete_taxonomy "alice" 0 exampleState).2).marinespecie_str =
      exampleState.marinespecie_str ∧
    ((delete_taxonomy "alice" 0 exampleState).2).marinespecie_id_counter =
      exampleState.marinespecie_id_counter ∧
    ∀ mid m, _get_marinespecie mid exampleState = some m →
      get_marinespecie mid (delete_taxonomy "alice" 0 exampleState).2 = Except.ok m :=
  delete_taxonomy_leaves_marine_store "alice" 0 exampleState
    ⟨0, "alice", "Animalia", "Chordata", "Mammalia", "Cetacea", "Balaenopteridae",
      "Balaenoptera", "musculus", 1, none⟩ (by rfl)

/-! ## Id allocation across call sequences (C1) -/

lemma add_taxonomy_ok_counter (c : String) (n : Nat) (p : TaxonomyPayload) (s : State)
    (hv : p.validate = []) :
    ((add_taxonomy c n p s).2).taxonomy_id_counter =
      (s.taxonomy_id_counter + 1) % 2 ^ 64 := by
  rw [add_taxonomy_ok c n p s hv]

lemma add_marinespecie_ok_counter (c : String) (n : Nat) (p : MarineSpeciePayload)
    (s : State) (hv : p.validate = []) :
    ((add_marinespecie c n p s).2).marinespecie_id_counter =
      (s.marinespecie_id_counter + 1) % 2 ^ 64 := by
  rw [add_marinespecie_ok c n p s hv]

lemma createdTaxIds_cons_addTax_ok (c : String) (n : Nat) (p : TaxonomyPayload)
    (rest : List Op) (s : State) (hv : p.validate = []) :
    createdTaxIds (Op.addTax c n p :: rest) s =
      s.taxonomy_id_counter :: createdTaxIds rest (add_taxonomy c n p s).2 := by
  simp only [createdTaxIds]
  rw [add_taxonomy_ok c n p s hv]

lemma createdMarIds_cons_addMar_ok (c : String) (n : Nat) (p : MarineSpeciePayload)
    (rest : List Op) (s : State) (hv : p.validate = []) :
    createdMarIds (Op.addMar c n p :: rest) s =
      s.marinespecie_id_counter :: createdMarIds rest (add_marinespecie c n p s).2 := by
  simp only [createdMarIds]
  rw [add_marinespecie_ok c n p s hv]

lemma createdTaxIds_step_aux (op : Op) (rest : List Op) (s : State)
    (hc : (runOp op s).taxonomy_id_counter = s.taxonomy_id_counter)
    (hcons : createdTaxIds (op :: rest) s = createdTaxIds rest (runOp op s))
    (ih : ∀ s1 : State, s1.taxonomy_id_counter + rest.length < 2 ^ 64 →
      (∀ i ∈ createdTaxIds rest s1, s1.taxonomy_id_counter ≤ i) ∧
      List.Pairwise (· < ·) (createdTaxIds rest s1))
    (h : s.taxonomy_id_counter + (op :: rest).length < 2 ^ 64) :
    (∀ i ∈ createdTaxIds (op :: rest) s, s.taxonomy_id_counter ≤ i) ∧
    List.Pairwise (· < ·) (createdTaxIds (op :: rest) s) := by
  have hb : (runOp op s).taxonomy_id_counter + rest.length < 2 ^ 64 := by
    rw [hc]
    simp only [List.length_cons] at h
    omega
  obtain ⟨lb, pw⟩ := ih _ hb
  rw [hcons]
  refine ⟨fun i hi => ?_, pw⟩
  have := lb i hi
  rwa [hc] at this

lemma createdMarIds_step_aux (op : Op) (rest : List Op) (s : State)
    (hc : (runOp op s).marinespecie_id_counter = s.marinespecie_id_counter)
    (hcons : createdMarIds (op :: rest) s = createdMarIds rest (runOp op s))
    (ih : ∀ s1 : State, s1.marinespecie_id_counter + rest.length < 2 ^ 64 →
      (∀ i ∈ createdMarIds rest s1, s1.marinespecie_id_counter ≤ i) ∧
      List.Pairwise (· < ·) (createdMarIds rest s1))
    (h : s.marinespecie_id_counter + (op :: rest).length < 2 ^ 64) :
    (∀ i ∈ createdMarIds (op :: rest) s, s.marinespecie_id_counter ≤ i) ∧
    List.Pairwise (· < ·) (createdMarIds (op :: rest) s) := by
  have hb : (runOp op s).marinespecie_id_counter + rest.length < 2 ^ 64 := by
    rw [hc]
    simp only [List.length_cons] at h
    omega
  obtain ⟨lb, pw⟩ := ih _ hb
  rw [hcons]
  refine ⟨fun i hi => ?_, pw⟩
  have := lb i hi
  rwa [hc] at this

lemma createdTaxIds_lb_pairwise (ops : List Op) :
    ∀ s : State, s.taxonomy_id_counter + ops.length < 2 ^ 64 →
      (∀ i ∈ createdTaxIds ops s, s.taxonomy_id_counter ≤ i) ∧
      List.Pairwise (· < ·) (createdTaxIds ops s) := by
  induction ops with
  | nil =>
    intro s _
    simp [createdTaxIds]
  | cons op rest ih =>
    intro s h
    cases op with
    | addTax c0 n0 p0 =>
      by_cases hv : p0.validate = []
      · have hmod : (s.taxonomy_id_counter + 1) % 2 ^ 64 = s.taxonomy_id_counter + 1 := by
          apply Nat.mod_eq_of_lt
          simp only [List.length_cons] at h
          omega
        have hcnt := add_taxonomy_ok_counter c0 n0 p0 s hv
        have hb : ((add_taxonomy c0 n0 p0 s).2).taxonomy_id_counter + rest.length < 2 ^ 64 := by
          rw [hcnt, hmod]
          simp only [List.length_cons] at h
          omega
        obtain ⟨lb, pw⟩ := ih _ hb
        rw [createdTaxIds_cons_addTax_ok c0 n0 p0 rest s hv]
        constructor
        · intro i hi
          rcases List.mem_cons.mp hi with rfl | hi
          · exact Nat.le_refl _
          · have := lb i hi
            rw [hcnt, hmod] at this
            omega
        · refine List.Pairwise.cons (fun i hi => ?_) pw
          have := lb i hi
          rw [hcnt, hmod] at this
          omega
      · have hstate : (add_taxonomy c0 n0 p0 s).2 = s := by
          rw [add_taxonomy_err c0 n0 p0 s hv]
        refine createdTaxIds_step_aux _ rest s (by rw [runOp, hstate]) ?_ ih h
        simp only [createdTaxIds, add_taxonomy_err c0 n0 p0 s hv, runOp]
    | updateTax c0 n0 id0 p0 =>
      exact createdTaxIds_step_aux _ rest s (update_taxonomy_frame c0 n0 id0 p0 s).1
        (by simp [createdTaxIds, runOp]) ih h
    | deleteTax c0 id0 =>
      exact createdTaxIds_step_aux _ rest s (delete_taxonomy_frame c0 id0 s).1
        (by simp [createdTaxIds, runOp]) ih h
    | addMar c0 n0 p0 =>
      exact createdTaxIds_step_aux _ rest s (add_marinespecie_frame c0 n0 p0 s).1
        (by simp [createdTaxIds, runOp]) ih h
    | updateMar c0 n0 id0 p0 =>
      exact createdTaxIds_step_aux _ rest s (update_marinespecie_frame c0 n0 id0 p0 s).2.1
        (by simp [createdTaxIds, runOp]) ih h
    | deleteMar c0 id0 =>
      exact createdTaxIds_step_aux _ rest s (delete_marinespecie_frame c0 id0 s).2.1
        (by simp [createdTaxIds, runOp]) ih h

lemma createdMarIds_lb_pairwise (ops : List Op) :
    ∀ s : State, s.marinespecie_id_counter + ops.length < 2 ^ 64 →
      (∀ i ∈ createdMarIds ops s, s.marinespecie_id_counter ≤ i) ∧
      List.Pairwise (· < ·) (createdMarIds ops s) := by
  induction ops with
  | nil =>
    intro s _
    simp [createdMarIds]
  | cons op rest ih =>
    intro s h
    cases op with
    | addMar c0 n0 p0 =>
      by_cases hv : p0.validate = []
      · have hmod : (s.marinespecie_id_counter + 1) % 2 ^ 64 =
            s.marinespecie_id_counter + 1 := by
          apply Nat.mod_eq_of_lt
          simp only [List.length_cons] at h
          omega
        have hcnt := add_marinespecie_ok_counter c0 n0 p0 s hv
        have hb : ((add_marinespecie c0 n0 p0 s).2).marinespecie_id_counter +
            rest.length < 2 ^ 64 := by
          rw [hcnt, hmod]
          simp only [List.length_cons] at h
          omega
        obtain ⟨lb, pw⟩ := ih _ hb
        rw [createdMarIds_cons_addMar_ok c0 n0 p0 rest s hv]
        constructor
        · intro i hi
          rcases List.mem_cons.mp hi with rfl | hi
          · exact Nat.le_refl _
          · have := lb i hi
            rw [hcnt, hmod] at this
            omega
        · refine List.Pairwise.cons (fun i hi => ?_) pw
          have := lb i hi
          rw [hcnt, hmod] at this
          omega
      · have hstate : (add_marinespecie c0 n0 p0 s).2 = s := by
          rw [add_marinespecie_err c0 n0 p0 s hv]
        refine createdMarIds_step_aux _ rest s (by rw [runOp, hstate]) ?_ ih h
        simp only [createdMarIds, add_marinespecie_err c0 n0 p0 s hv, runOp]
    | addTax c0 n0 p0 =>
      exact createdMarIds_step_aux _ rest s (add_taxonomy_frame c0 n0 p0 s).1
        (by simp [createdMarIds, runOp]) ih h
    | updateTax c0 n0 id0 p0 =>
      exact createdMarIds_step_aux _ rest s (update_taxonomy_frame c0 n0 id0 p0 s).2.1
        (by simp [createdMarIds, runOp]) ih h
    | deleteTax c0 id0 =>
      exact createdMarIds_step_aux _ rest s (delete_taxonomy_frame c0 id0 s).2.1
        (by simp [createdMarIds, runOp]) ih h
    | updateMar c0 n0 id0 p0 =>
      exact createdMarIds_step_aux _ rest s (update_marinespecie_frame c0 n0 id0 p0 s).1
        (by simp [createdMarIds, runOp]) ih h
    | deleteMar c0 id0 =>
      exact createdMarIds_step_aux _ rest s (delete_marinespecie_frame c0 id0 s).1
        (by simp [createdMarIds, runOp]) ih h

/-- C1: for each collection, the ids returned by the successful Creates of
any call sequence from the fresh state (shorter than the u64 range, where
the counter cannot wrap) are strictly increasing and never repeat, whatever
Deletes or other calls happen in between. -/
theorem create_ids_strictly_increasing (ops : List Op) (h : ops.length < 2 ^ 64) :
    List.Pairwise (· < ·) (createdTaxIds ops initState) ∧
    (createdTaxIds ops initState).Nodup ∧
    List.Pairwise (· < ·) (createdMarIds ops initState) ∧
    (createdMarIds ops initState).Nodup := by
  have ht := createdTaxIds_lb_pairwise ops initState (by simpa [initState] using h)
  have hm := createdMarIds_lb_pairwise ops initState (by simpa [initState] using h)
  exact ⟨ht.2, ht.2.imp Nat.ne_of_lt, hm.2, hm.2.imp Nat.ne_of_lt⟩

/-- Witness for C1: a sequence with a Delete between two Creates in each
collection; the second Create still gets a strictly larger, fresh id. -/
theorem create_ids_strictly_increasing_witness :
    List.Pairwise (· < ·) (createdTaxIds
      [Op.addTax "alice" 1 exampleTaxonomyPayload, Op.deleteTax "alice" 0,
       Op.addTax "alice" 3 exampleTaxonomyPayload, Op.addMar "alice" 4 exampleMarinePayload,
       Op.deleteMar "alice" 0, Op.addMar "alice" 6 exampleMarinePayload] initState) ∧
    (createdTaxIds
      [Op.addTax "alice" 1 exampleTaxonomyPayload, Op.deleteTax "alice" 0,
       Op.addTax "alice" 3 exampleTaxonomyPayload, Op.addMar "alice" 4 exampleMarinePayload,
       Op.deleteMar "alice" 0, Op.addMar "alice" 6 exampleMarinePayload] initState).Nodup ∧
    List.Pairwise (· < ·) (createdMarIds
      [Op.addTax "alice" 1 exampleTaxonomyPayload, Op.deleteTax "alice" 0,
       Op.addTax "alice" 3 exampleTaxonomyPayload, Op.addMar "alice" 4 exampleMarinePayload,
       Op.deleteMar "alice" 0, Op.addMar "alice" 6 exampleMarinePayload] initState) ∧
    (createdMarIds
      [Op.addTax "alice" 1 exampleTaxonomyPayload, Op.deleteTax "alice" 0,
       Op.addTax "alice" 3 exampleTaxonomyPayload, Op.addMar "alice" 4 exampleMarinePayload,
       Op.deleteMar "alice" 0, Op.addMar "alice" 6 exampleMarinePayload] initState).Nodup :=
  create_ids_strictly_increasing
    [Op.addTax "alice" 1 exampleTaxonomyPayload, Op.deleteTax "alice" 0,
     Op.addTax "alice" 3 exampleTaxonomyPayload, Op.addMar "alice" 4 exampleMarinePayload,
     Op.deleteMar "alice" 0, Op.addMar "alice" 6 exampleMarinePayload] (by decide)

/-! ## The key-equals-id store invariant (C10) -/

/-- A store satisfies keyed f when every stored record, projected by f,
equals the map key it is stored under. -/
def keyed {α : Type} (f : α → Nat) (l : List (Nat × α)) : Prop :=
  ∀ p ∈ l, f p.2 = p.1

lemma keyed_mapInsert {α : Type} (f : α → Nat) (k : Nat) (v : α) :
    ∀ l : List (Nat × α), keyed f l → f v = k → keyed f (mapInsert k v l)
  | [], _, hv => by
    intro p hp
    simp only [mapInsert, List.mem_singleton] at hp
    rw [hp]
    simpa using hv
  | (k₁, v₁) :: rest, hl, hv => by
    intro p hp
    by_cases h1 : k < k₁
    · simp only [mapInsert, if_pos h1] at hp
      rcases List.mem_cons.mp hp with rfl | hp
      · simpa using hv
      · exact hl p hp
    · by_cases h2 : k = k₁
      · simp only [mapInsert, if_neg h1, if_pos h2] at hp
        rcases List.mem_cons.mp hp with rfl | hp
        · simpa using hv
        · exact hl p (List.mem_cons_of_mem _ hp)
      · simp only [mapInsert, if_neg h1, if_neg h2] at hp
        rcases List.mem_cons.mp hp with rfl | hp
        · exact hl (k₁, v₁) (List.mem_cons_self _ _)
        · exact keyed_mapInsert f k v rest
            (fun q hq => hl q (List.mem_cons_of_mem _ hq)) hv p hp

lemma keyed_mapRemove {α : Type} (f : α → Nat) (k : Nat) :
    ∀ l : List (Nat × α), keyed f l → keyed f (mapRemove k l).2
  | [], _ => by
    intro p hp
    simp [mapRemove] at hp
  | (k₁, v₁) :: rest, hl => by
    intro p hp
    by_cases h1 : k = k₁
    · simp only [mapRemove, if_pos h1] at hp
      exact hl p (List.mem_cons_of_mem _ hp)
    · simp only [mapRemove, if_neg h1] at hp
      rcases List.mem_cons.mp hp with rfl | hp
      · exact hl (k₁, v₁) (List.mem_cons_self _ _)
      · exact keyed_mapRemove f k rest
          (fun q hq => hl q (List.mem_cons_of_mem _ hq)) p hp

lemma runOp_preserves_keyed (op : Op) (s : State)
    (ht : keyed Taxonomy.id s.taxonomy_str)
    (hm : keyed MarineSpecie.id s.marinespecie_str) :
    keyed Taxonomy.id (runOp op s).taxonomy_str ∧
    keyed MarineSpecie.id (runOp op s).marinespecie_str := by
  cases op
  all_goals
    simp only [runOp, add_taxonomy, add_marinespecie, update_taxonomy, update_marinespecie,
      delete_taxonomy, delete_marinespecie, do_insert_taxonomy, do_insert_marinespecie,
      _get_taxonomy, _get_marinespecie]
  all_goals repeat' split
  all_goals try dsimp only
  all_goals
    first
      | exact ⟨keyed_mapInsert _ _ _ _ ht rfl, hm⟩
      | exact ⟨ht, keyed_mapInsert _ _ _ _ hm rfl⟩
      | exact ⟨keyed_mapRemove _ _ _ ht, hm⟩
      | exact ⟨ht, keyed_mapRemove _ _ _ hm⟩
      | exact ⟨ht, hm⟩

lemma runOps_preserves_keyed :
    ∀ (ops : List Op) (s : State),
      keyed Taxonomy.id s.taxonomy_str → keyed MarineSpecie.id s.marinespecie_str →
      keyed Taxonomy.id (runOps ops s).taxonomy_str ∧
      keyed MarineSpecie.id (runOps ops s).marinespecie_str
  | [], _, ht, hm => ⟨ht, hm⟩
  | op :: rest, s, ht, hm => by
    have h := runOp_preserves_keyed op s ht hm
    exact runOps_preserves_keyed rest (runOp op s) h.1 h.2

/-- C10: in every state reachable from the fresh state through the exposed
mutating operations, each record stored in either collection map has its id
field equal to the map key under which it is stored. -/
theorem stored_record_id_equals_key (ops : List Op) :
    keyed Taxonomy.id (runOps ops initState).taxonomy_str ∧
    keyed MarineSpecie.id (runOps ops initState).marinespecie_str :=
  runOps_preserves_keyed ops initState
    (by intro p hp; simp [initState] at hp)
    (by intro p hp; simp [initState] at hp)

/-- Witness for C10: in the example scenario, after an update, the records
stored under key 0 carry id 0. -/
theorem stored_record_id_equals_key_witness :
    Taxonomy.id ⟨0, "alice", "Animalia", "Chordata", "Mammalia", "Cetacea",
      "Balaenopteridae", "Balaenoptera", "musculus", 1, some 3⟩ = 0 ∧
    MarineSpecie.id ⟨0, "alice", "Blue Whale", "Ocean", 0, "Endangered", 2, none⟩ = 0 :=
  ⟨(stored_record_id_equals_key
      [Op.addTax "alice" 1 exampleTaxonomyPayload, Op.addMar "alice" 2 exampleMarinePayload,
       Op.updateTax "alice" 3 0 exampleTaxonomyPayload]).1
    (0, ⟨0, "alice", "Animalia", "Chordata", "Mammalia", "Cetacea",
      "Balaenopteridae", "Balaenoptera", "musculus", 1, some 3⟩) (by decide),
   (stored_record_id_equals_key
      [Op.addTax "alice" 1 exampleTaxonomyPayload, Op.addMar "alice" 2 exampleMarinePayload,
       Op.updateTax "alice" 3 0 exampleTaxonomyPayload]).2
    (0, ⟨0, "alice", "Blue Whale", "Ocean", 0, "Endangered", 2, none⟩) (by decide)⟩
